import Mathlib

/-!
# Verification of `couchdb_upgrade.py` (pietervogelaar/couchdb_upgrade)

Shallow embedding of the rolling-upgrade controller `CouchDbUpgrader`.
Remote command execution and HTTP responses are modelled as environment
data (per-node exit codes, stdout strings and HTTP response payloads);
the controller logic (`current_version_lower`, the step methods,
`upgrade_node`, the two polling loops and the `upgrade` driver) is
translated directly from the source.  Run results are
`Option Bool`: `some true` / `some false` are the Python `return True` /
`return False` paths, `none` models an uncaught Python exception
(`StrictVersion` raising `ValueError`, `requests` raising a connection
error outside a `try`, or an `IndexError` on `self._nodes[0]`).
Every issued remote command / HTTP request is recorded in a trace of
`Event`s.
-/

/-! ## Character-list utilities (Python `in`, `str.strip`, digit parsing) -/

/-- Tests whether `ns` is a prefix of `hs`. -/
def listPrefixOf : List Char → List Char → Bool
  | [], _ => true
  | _ :: _, [] => false
  | a :: as, b :: bs => a = b && listPrefixOf as bs

/-- Tests whether `ns` occurs contiguously in `hs`
(Python's `ns in hs` for strings). -/
def listInfixOf (needle : List Char) : List Char → Bool
  | [] => listPrefixOf needle []
  | c :: rest => listPrefixOf needle (c :: rest) || listInfixOf needle rest

/-- Python's substring test `needle in hay`. -/
def containsSub (needle hay : String) : Bool :=
  listInfixOf needle.toList hay.toList

/-- Python `str.strip` whitespace characters. -/
def isPySpace (c : Char) : Bool :=
  c = ' ' || c = '\t' || c = '\n' || c = '\r' || c = '\x0b' || c = '\x0c'

/-- Python `str.strip`: drop whitespace from both ends. -/
def trimChars (cs : List Char) : List Char :=
  ((cs.dropWhile isPySpace).reverse.dropWhile isPySpace).reverse

/-- Parse a non-empty all-digit character list as a natural number. -/
def parseDigits (cs : List Char) : Option Nat :=
  if !cs.isEmpty && cs.all (fun c => c.isDigit) then
    some (cs.foldl (fun n c => n * 10 + (c.toNat - 48)) 0)
  else
    none

/-- Split a character list on `.` (like Python `str.split('.')`). -/
def splitOnDot (cs : List Char) : List (List Char) :=
  cs.foldr
    (fun c acc =>
      if c = '.' then [] :: acc
      else
        match acc with
        | [] => [[c]]
        | g :: gs => (c :: g) :: gs)
    [[]]

/-! ## `distutils.version.StrictVersion`

A `StrictVersion` string matches `^(\d+)\.(\d+)(\.(\d+))?([ab](\d+))?$`.
We encode the pre-release letter as `0` for `a` and `1` for `b`, which
preserves the ordering of the Python tuples `('a', n) < ('b', n)`.
Constructing a `StrictVersion` from a non-matching string raises
`ValueError` in Python, which we model by `Option`. -/

structure SVersion where
  major : Nat
  minor : Nat
  patch : Nat
  pre : Option (Nat × Nat)
  deriving DecidableEq

/-- Ordering of `StrictVersion`s: numeric triple lexicographically, then
a version without a pre-release tag is greater than one with it, then
pre-release tags compare lexicographically. -/
def SVersion.cmp (x y : SVersion) : Ordering :=
  (compare x.major y.major).then
    ((compare x.minor y.minor).then
      ((compare x.patch y.patch).then
        (match x.pre, y.pre with
         | none, none => Ordering.eq
         | none, some _ => Ordering.gt
         | some _, none => Ordering.lt
         | some (l1, n1), some (l2, n2) => (compare l1 l2).then (compare n1 n2))))

/-- Split off the pre-release suffix at the first `a`/`b` character. -/
def splitPre (cs : List Char) : List Char × Option (Nat × List Char) :=
  match cs.span (fun c => !(c = 'a' || c = 'b')) with
  | (core, []) => (core, none)
  | (core, c :: rest) => (core, some ((if c = 'a' then 0 else 1), rest))

/-- Parse a character list as a `StrictVersion`
(`major.minor[.patch][a|b N]`); `none` models the `ValueError`. -/
def parseStrictVersion (cs : List Char) : Option SVersion :=
  let (core, preOpt) := splitPre cs
  let preParsed : Option (Option (Nat × Nat)) :=
    match preOpt with
    | none => some none
    | some (l, ds) =>
      match parseDigits ds with
      | some n => some (some (l, n))
      | none => none
  match preParsed with
  | none => none
  | some p =>
    match splitOnDot core with
    | [a, b] =>
      match parseDigits a, parseDigits b with
      | some ma, some mi => some ⟨ma, mi, 0, p⟩
      | _, _ => none
    | [a, b, c] =>
      match parseDigits a, parseDigits b, parseDigits c with
      | some ma, some mi, some pa => some ⟨ma, mi, pa, p⟩
      | _, _, _ => none
    | _ => none

/-- Runs `StrictVersion(s)` on a Python string. -/
def strictVersion (s : String) : Option SVersion :=
  parseStrictVersion s.toList

/-! ## Data model: configuration, per-node environment, mutable state, trace -/

/-- The configuration fields of `CouchDbUpgrader.__init__` that the
control flow reads.  `version` is the configured target (possibly the
sentinel `"latest"`); `checkStableCommand` models the
`check_stable_command` template (stored by `__init__`, lines 63-66/103).
The command-template strings for stop/start/upgrade/os-upgrade/probe are
opaque configuration data; the trace records which of them is executed. -/
structure Config where
  version : String
  upgradeSystem : Bool
  reboot : Bool
  forceReboot : Bool
  checkStableCommand : String
  deriving DecidableEq

/-- Response of the HTTP `GET` on a node's root URL used by
`current_version_lower` (lines 130-153).  `exn` is a raised
`requests` exception (the call is outside any `try`), `err` a non-200
status, `ok v` a 200 response whose JSON body has `version` field `v`
(or lacks one, `none`). -/
inductive VersionResp where
  | exn
  | err
  | ok (version : Option String)
  deriving DecidableEq

/-- Per-node external world: the version-endpoint response, the two
`datetime.datetime.now()` readings (at `upgrade_node` entry, line 400,
and inside `start_service`, line 224), and the exit codes / stdout of
the five remote commands the node may receive.  `rebootExit` is the exit
status of the reboot command; the source discards it (line 346). -/
structure NodeEnv where
  versionResp : VersionResp
  entryTime : Nat
  startTime : Nat
  stopExit : Int
  upgradeExit : Int
  upgradeStdout : String
  osExit : Int
  osStdout : String
  startExit : Int
  rebootExit : Int
  deriving DecidableEq

/-- The mutable instance attributes of `CouchDbUpgrader` that
`upgrade_node` reads or writes: `_version` (re-assigned by `upgrade`
when resolving `"latest"`), `_service_start_time`, `_rebooting`,
`_couchdb_upgrades_available`, `_os_upgrades_available`
(lines 104, 112-115). -/
structure UState where
  version : String
  serviceStartTime : Option Nat
  rebooting : Bool
  couchUpgradesAvailable : Bool
  osUpgradesAvailable : Bool
  deriving DecidableEq

/-- State right after `__init__`. -/
def initState (cfg : Config) : UState :=
  { version := cfg.version
    serviceStartTime := none
    rebooting := false
    couchUpgradesAvailable := false
    osUpgradesAvailable := false }

/-- One observable remote interaction.  `sshCheckStable` is the
execution of the configured `check_stable_command` with the substituted
`{service_start_time}` value; the event exists in the vocabulary because
the template is part of the configuration, and the theorems below show
the source never emits it. -/
inductive Event where
  | versionQuery (node : String)
  | sshStop (node : String)
  | sshUpgrade (node : String)
  | sshUpgradeOs (node : String)
  | sshStart (node : String)
  | sshReboot (node : String)
  | sshLatestVersion (node : String)
  | sshCheckStable (node : String) (serviceStartTime : Nat)
  | joinWait (node : String)
  | stableWait (node : String)
  deriving DecidableEq

/-- The node a trace event is addressed to. -/
def Event.node : Event → String
  | .versionQuery n => n
  | .sshStop n => n
  | .sshUpgrade n => n
  | .sshUpgradeOs n => n
  | .sshStart n => n
  | .sshReboot n => n
  | .sshLatestVersion n => n
  | .sshCheckStable n _ => n
  | .joinWait n => n
  | .stableWait n => n

/-- Is the event an execution of the stability-check remote command? -/
def Event.isCheckStable : Event → Bool
  | .sshCheckStable _ _ => true
  | _ => false

/-- Is the event one of the stop-service / upgrade / start-service
remote commands? -/
def Event.isStopUpgStart : Event → Bool
  | .sshStop _ => true
  | .sshUpgrade _ => true
  | .sshStart _ => true
  | _ => false

/-- Is the event the probe for the latest available version? -/
def Event.isProbe : Event → Bool
  | .sshLatestVersion _ => true
  | _ => false

/-! ## `current_version_lower` (lines 123-153)

Returns `some true` when the reported running version is strictly lower
than the target, `some false` on the equal / higher / non-200 /
missing-field paths, and `none` (crash) when the HTTP call raises or
`StrictVersion` raises on either string. -/

def current_version_lower (target : String) (resp : VersionResp) : Option Bool :=
  match resp with
  | .exn => none
  | .err => some false
  | .ok none => some false
  | .ok (some vstr) =>
    match strictVersion vstr, strictVersion target with
    | some cv, some tv => some (SVersion.cmp cv tv = Ordering.lt)
    | _, _ => none

/-! ## The per-node step methods (lines 155-230, 343-346)

Each returns the Python return value, the updated state and the list of
remote commands it issued.  Exit-code checks and flag writes follow the
source order: a non-zero exit returns `False` before the availability
flag is written. -/

/-- Method `upgrade_couchdb` (lines 168-191): on success sets
`_couchdb_upgrades_available` from the `'Nothing to do'` stdout marker. -/
def upgrade_couchdb (env : NodeEnv) (node : String) (s : UState) :
    Bool × UState × List Event :=
  if env.upgradeExit = 0 then
    (true,
     { s with couchUpgradesAvailable := !(containsSub "Nothing to do" env.upgradeStdout) },
     [Event.sshUpgrade node])
  else
    (false, s, [Event.sshUpgrade node])

/-- Method `upgrade_system` (lines 193-215): on success sets
`_os_upgrades_available` from the `'No packages marked for update'`
stdout marker. -/
def upgrade_system (env : NodeEnv) (node : String) (s : UState) :
    Bool × UState × List Event :=
  if env.osExit = 0 then
    (true,
     { s with osUpgradesAvailable := !(containsSub "No packages marked for update" env.osStdout) },
     [Event.sshUpgradeOs node])
  else
    (false, s, [Event.sshUpgradeOs node])

/-- Method `reboot` (lines 343-346): sets `_rebooting` and issues the shutdown
command; the exit status of the ssh command is not inspected. -/
def rebootNode (node : String) (s : UState) : UState × List Event :=
  ({ s with rebooting := true }, [Event.sshReboot node])

/-! ## `upgrade_node` (lines 397-458)

The body is split into phase functions mirroring the source blocks;
each returns `(Python return value, state, issued events)`. -/

/-- Lines 444-456: the reboot decision of the not-up-to-date path, the
conditional explicit service start (which records
`_service_start_time`, line 224, before running the command), and the
two waits. -/
def afterOsPhase (cfg : Config) (env : NodeEnv) (node : String) (s : UState) :
    Option Bool × UState × List Event :=
  if cfg.forceReboot || (cfg.reboot && (s.couchUpgradesAvailable || s.osUpgradesAvailable)) then
    let (s1, tr) := rebootNode node s
    (some true, s1, tr ++ [Event.joinWait node, Event.stableWait node])
  else
    let s1 := { s with serviceStartTime := some env.startTime }
    if env.startExit ≠ 0 then
      (some false, s1, [Event.sshStart node])
    else
      (some true, s1, [Event.sshStart node, Event.joinWait node, Event.stableWait node])

/-- Lines 435-442: the optional OS upgrade of the not-up-to-date path. -/
def osPhase (cfg : Config) (env : NodeEnv) (node : String) (s : UState) :
    Option Bool × UState × List Event :=
  if cfg.upgradeSystem then
    match upgrade_system env node s with
    | (false, s1, tr) => (some false, s1, tr)
    | (true, s1, tr) =>
      let (r, s2, tr2) := afterOsPhase cfg env node s1
      (r, s2, tr ++ tr2)
  else
    afterOsPhase cfg env node s

/-- Lines 422-458: `if not self._rebooting:` — stop, upgrade, optional
OS upgrade, reboot decision, optional start — then the two waits.  A
node that arrives here with `_rebooting` set (up-to-date + reboot path)
goes straight to the waits. -/
def mainPhase (cfg : Config) (env : NodeEnv) (node : String) (s : UState) :
    Option Bool × UState × List Event :=
  if s.rebooting then
    (some true, s, [Event.joinWait node, Event.stableWait node])
  else if env.stopExit ≠ 0 then
    (some false, s, [Event.sshStop node])
  else
    match upgrade_couchdb env node s with
    | (false, s1, tr) => (some false, s1, Event.sshStop node :: tr)
    | (true, s1, tr) =>
      let (r, s2, tr2) := osPhase cfg env node s1
      (r, s2, Event.sshStop node :: (tr ++ tr2))

/-- Lines 417-420: reboot decision of the up-to-date branch — it reads
only `_os_upgrades_available` — falling through to the waits when it
reboots, returning `True` immediately otherwise. -/
def upToDateReboot (cfg : Config) (env : NodeEnv) (node : String) (s : UState) :
    Option Bool × UState × List Event :=
  if cfg.forceReboot || (cfg.reboot && s.osUpgradesAvailable) then
    let (s1, tr1) := rebootNode node s
    let (r, s2, tr2) := mainPhase cfg env node s1
    (r, s2, tr1 ++ tr2)
  else
    (some true, s, [])

/-- Lines 406-420: the branch for a node whose CouchDB is already up to
date (optional OS upgrade, then the up-to-date reboot decision). -/
def upToDatePhase (cfg : Config) (env : NodeEnv) (node : String) (s : UState) :
    Option Bool × UState × List Event :=
  if cfg.upgradeSystem then
    match upgrade_system env node s with
    | (false, s1, tr) => (some false, s1, tr)
    | (true, s1, tr) =>
      let (r, s2, tr2) := upToDateReboot cfg env node s1
      (r, s2, tr ++ tr2)
  else
    upToDateReboot cfg env node s

/-- Method `upgrade_node` (lines 397-458): reset `_service_start_time` and
`_rebooting` (lines 400-401), run the version check when `_version` is
truthy (lines 403-420), then the main phase. -/
def upgrade_node (cfg : Config) (env : NodeEnv) (node : String) (s0 : UState) :
    Option Bool × UState × List Event :=
  let s := { s0 with serviceStartTime := some env.entryTime, rebooting := false }
  if s.version = "" then
    mainPhase cfg env node s
  else
    match current_version_lower s.version env.versionResp with
    | none => (none, s, [Event.versionQuery node])
    | some false =>
      let (r, s1, tr) := upToDatePhase cfg env node s
      (r, s1, Event.versionQuery node :: tr)
    | some true =>
      let (r, s1, tr) := mainPhase cfg env node s
      (r, s1, Event.versionQuery node :: tr)

/-! ## `get_latest_version` (lines 326-341) and the driver (lines 460-484) -/

/-- Environment of a whole rollout: the probe command's result on the
first node, and each node's environment. -/
structure DriverEnv where
  probeExit : Int
  probeStdout : String
  nodeEnvs : String → NodeEnv

/-- Method `get_latest_version`: `some none` is the orderly `return False`
(non-zero exit, or probed version not greater than `0.0.0`);
`none` is the `ValueError` raised by `StrictVersion` on a string that is
not a version; `some (some v)` returns the stripped stdout. -/
def get_latest_version (probeExit : Int) (probeStdout : String) :
    Option (Option String) :=
  if probeExit ≠ 0 then
    some none
  else
    let trimmed := trimChars probeStdout.toList
    match parseStrictVersion trimmed with
    | none => none
    | some v =>
      if SVersion.cmp v ⟨0, 0, 0, none⟩ = Ordering.gt then
        some (some (String.mk trimmed))
      else
        some none

/-- The `for node in self._nodes` loop of `upgrade` (lines 477-480):
process nodes in order, stopping at the first `upgrade_node` that does
not return `True` (a crash `none` propagates). -/
def runNodes (cfg : Config) (envs : String → NodeEnv) :
    List String → UState → Option Bool × UState × List Event
  | [], s => (some true, s, [])
  | n :: rest, s =>
    match upgrade_node cfg (envs n) n s with
    | (some true, s1, tr) =>
      let (r, s2, tr2) := runNodes cfg envs rest s1
      (r, s2, tr ++ tr2)
    | (r, s1, tr) => (r, s1, tr)

/-- Method `upgrade` (lines 460-484): resolve `"latest"` by probing
`self._nodes[0]` (an `IndexError` crash on an empty list), assign the
result to `_version`, then run the per-node loop. -/
def upgrade (cfg : Config) (denv : DriverEnv) (nodes : List String) :
    Option Bool × List Event :=
  let s0 := initState cfg
  if cfg.version = "latest" then
    match nodes with
    | [] => (none, [])
    | n0 :: _ =>
      match get_latest_version denv.probeExit denv.probeStdout with
      | none => (none, [Event.sshLatestVersion n0])
      | some none => (some false, [Event.sshLatestVersion n0])
      | some (some v) =>
        let (r, _, tr) := runNodes cfg denv.nodeEnvs nodes { s0 with version := v }
        (r, Event.sshLatestVersion n0 :: tr)
  else
    let (r, _, tr) := runNodes cfg denv.nodeEnvs nodes s0
    (r, tr)

/-! ## The two polling loops (lines 232-324)

Each iteration of the Python `while True:` consumes one HTTP response;
we model a run of the loop over a finite list of responses.  The loops
terminate only by `return True` (or, for the stability loop, an uncaught
`KeyError` when a 200 body lacks the `status` field); with the response
list exhausted the loop is still polling. -/

/-- Response of one `GET {node}/_membership` poll (lines 244-261):
a connection error caught by the `except ConnectionError` handler, or a
status code with the optional `all_nodes` / `cluster_nodes` arrays. -/
inductive JoinResp where
  | connError
  | resp (status : Nat) (allNodes : Option (List String)) (clusterNodes : Option (List String))
  deriving DecidableEq

/-- One iteration of the `wait_until_joined` loop body: `true` when the
loop returns (node joined), `false` when it polls again.  Joined means a
200 response whose `all_nodes` and `cluster_nodes` both contain an entry
having the node name as a substring (lines 255-261); a connection error
falls through to the "hasn't joined yet" path (lines 270-278). -/
def joinStep (node : String) (r : JoinResp) : Bool :=
  match r with
  | .connError => false
  | .resp status allNodes clusterNodes =>
    status = 200 &&
      (match allNodes with
       | none => false
       | some ns => ns.any (fun s => containsSub node s)) &&
      (match clusterNodes with
       | none => false
       | some ns => ns.any (fun s => containsSub node s))

/-- Result of running a polling loop on a finite response list. -/
inductive LoopRes where
  | returned (b : Bool)
  | crashed
  | pending
  deriving DecidableEq

/-- Loop `wait_until_joined` (lines 232-278) over a list of responses. -/
def wait_until_joined (node : String) : List JoinResp → LoopRes
  | [] => LoopRes.pending
  | r :: rs =>
    if joinStep node r then LoopRes.returned true else wait_until_joined node rs

/-- Response of one `GET {node}/_up` poll (lines 292-303): a connection
error caught by the handler, or a status code with the optional `status`
field of the JSON body. -/
inductive UpResp where
  | connError
  | resp (status : Nat) (statusField : Option String)
  deriving DecidableEq

/-- Outcome of one iteration of the `wait_until_status_stable` body. -/
inductive StableStep where
  | done
  | again
  | crash
  deriving DecidableEq

/-- One iteration of the `wait_until_status_stable` loop body: a caught
connection error executes `return True` (lines 314-318); a 200 response
reads `data['status']` (an uncaught `KeyError` when absent) and returns
when it is `'ok'`; anything else polls again. -/
def stableStep (r : UpResp) : StableStep :=
  match r with
  | .connError => StableStep.done
  | .resp status statusField =>
    if status = 200 then
      match statusField with
      | none => StableStep.crash
      | some st => if st = "ok" then StableStep.done else StableStep.again
    else
      StableStep.again

/-- Loop `wait_until_status_stable` (lines 280-324) over a list of responses. -/
def wait_until_status_stable : List UpResp → LoopRes
  | [] => LoopRes.pending
  | r :: rs =>
    match stableStep r with
    | StableStep.done => LoopRes.returned true
    | StableStep.crash => LoopRes.crashed
    | StableStep.again => wait_until_status_stable rs

/-! ## Helper lemmas -/

/-- An event addressed to node `n` that is neither the latest-version
probe nor the stability-check command. -/
def nodeCmd (n : String) (e : Event) : Bool :=
  e.node = n && !e.isProbe && !e.isCheckStable

theorem afterOsPhase_nodeCmd (cfg : Config) (env : NodeEnv) (node : String) (s : UState) :
    ((afterOsPhase cfg env node s).2.2).all (nodeCmd node) = true := by
  unfold afterOsPhase rebootNode
  by_cases h1 : (cfg.forceReboot || (cfg.reboot && (s.couchUpgradesAvailable || s.osUpgradesAvailable))) = true
  · simp [h1, nodeCmd, Event.node, Event.isProbe, Event.isCheckStable]
  · by_cases h2 : env.startExit = 0 <;>
      simp [h1, h2, nodeCmd, Event.node, Event.isProbe, Event.isCheckStable]

theorem osPhase_nodeCmd (cfg : Config) (env : NodeEnv) (node : String) (s : UState) :
    ((osPhase cfg env node s).2.2).all (nodeCmd node) = true := by
  unfold osPhase upgrade_system
  by_cases h1 : cfg.upgradeSystem = true
  · by_cases h2 : env.osExit = 0 <;>
      simp [h1, h2, afterOsPhase_nodeCmd, nodeCmd, Event.node, Event.isProbe, Event.isCheckStable]
  · simp [h1, afterOsPhase_nodeCmd]

theorem mainPhase_nodeCmd (cfg : Config) (env : NodeEnv) (node : String) (s : UState) :
    ((mainPhase cfg env node s).2.2).all (nodeCmd node) = true := by
  unfold mainPhase upgrade_couchdb
  by_cases h1 : s.rebooting = true
  · simp [h1, nodeCmd, Event.node, Event.isProbe, Event.isCheckStable]
  · by_cases h2 : env.stopExit = 0
    · by_cases h3 : env.upgradeExit = 0 <;>
        simp [h1, h2, h3, osPhase_nodeCmd, nodeCmd, Event.node, Event.isProbe, Event.isCheckStable]
    · simp [h1, h2, nodeCmd, Event.node, Event.isProbe, Event.isCheckStable]

theorem upToDateReboot_nodeCmd (cfg : Config) (env : NodeEnv) (node : String) (s : UState) :
    ((upToDateReboot cfg env node s).2.2).all (nodeCmd node) = true := by
  unfold upToDateReboot rebootNode
  by_cases h1 : (cfg.forceReboot || (cfg.reboot && s.osUpgradesAvailable)) = true <;>
    simp [h1, mainPhase_nodeCmd, nodeCmd, Event.node, Event.isProbe, Event.isCheckStable]

theorem upToDatePhase_nodeCmd (cfg : Config) (env : NodeEnv) (node : String) (s : UState) :
    ((upToDatePhase cfg env node s).2.2).all (nodeCmd node) = true := by
  unfold upToDatePhase upgrade_system
  by_cases h1 : cfg.upgradeSystem = true
  · by_cases h2 : env.osExit = 0 <;>
      simp [h1, h2, upToDateReboot_nodeCmd, nodeCmd, Event.node, Event.isProbe, Event.isCheckStable]
  · simp [h1, upToDateReboot_nodeCmd]

/-- Every event `upgrade_node` emits is a non-probe, non-stability-check
interaction addressed to the node being processed. -/
theorem upgrade_node_nodeCmd (cfg : Config) (env : NodeEnv) (node : String) (s : UState) :
    ((upgrade_node cfg env node s).2.2).all (nodeCmd node) = true := by
  unfold upgrade_node
  by_cases h1 : s.version = ""
  · simp [h1, mainPhase_nodeCmd]
  · cases hv : current_version_lower s.version env.versionResp with
    | none => simp [h1, hv, nodeCmd, Event.node, Event.isProbe, Event.isCheckStable]
    | some b =>
      cases b <;>
        simp [h1, hv, upToDatePhase_nodeCmd, mainPhase_nodeCmd, nodeCmd,
          Event.node, Event.isProbe, Event.isCheckStable]

theorem nodeCmd_node {n : String} {e : Event} (h : nodeCmd n e = true) : e.node = n := by
  simp only [nodeCmd, Bool.and_eq_true, decide_eq_true_eq] at h
  exact h.1.1

/-- Every event in a `runNodes` trace is addressed to one of the
processed nodes. -/
theorem runNodes_node_mem (cfg : Config) (envs : String → NodeEnv) :
    ∀ (ns : List String) (s : UState) (e : Event),
      e ∈ (runNodes cfg envs ns s).2.2 → e.node ∈ ns := by
  intro ns
  induction ns with
  | nil => intro s e he; simp [runNodes] at he
  | cons n rest ih =>
    intro s e he
    have hall := upgrade_node_nodeCmd cfg (envs n) n s
    rw [List.all_eq_true] at hall
    unfold runNodes at he
    rcases h : upgrade_node cfg (envs n) n s with ⟨r, s1, tr⟩
    rw [h] at hall he
    rcases r with _ | b
    · simp only at he
      rw [nodeCmd_node (hall e he)]
      exact List.mem_cons_self n rest
    · cases b with
      | false =>
        simp only at he
        rw [nodeCmd_node (hall e he)]
        exact List.mem_cons_self n rest
      | true =>
        simp only at he
        rcases List.mem_append.mp he with hl | hr
        · rw [nodeCmd_node (hall e hl)]
          exact List.mem_cons_self n rest
        · exact List.mem_cons_of_mem n (ih s1 e hr)

/-- Unfolding of `runNodes` on a non-empty list. -/
theorem runNodes_cons (cfg : Config) (envs : String → NodeEnv) (n : String)
    (rest : List String) (s : UState) :
    runNodes cfg envs (n :: rest) s =
      if (upgrade_node cfg (envs n) n s).1 = some true then
        ((runNodes cfg envs rest (upgrade_node cfg (envs n) n s).2.1).1,
         (runNodes cfg envs rest (upgrade_node cfg (envs n) n s).2.1).2.1,
         (upgrade_node cfg (envs n) n s).2.2 ++
           (runNodes cfg envs rest (upgrade_node cfg (envs n) n s).2.1).2.2)
      else
        upgrade_node cfg (envs n) n s := by
  rw [runNodes]
  rcases upgrade_node cfg (envs n) n s with ⟨r, s1, tr⟩
  rcases r with _ | b
  · simp
  · cases b with
    | false => simp
    | true =>
      simp only
      rcases hq : runNodes cfg envs rest s1 with ⟨r2, s2, tr2⟩
      simp

/-- A successful prefix followed by a failing node: the whole run fails
with exactly the prefix trace plus the failing node's trace. -/
theorem runNodes_prefix_fail (cfg : Config) (envs : String → NodeEnv) :
    ∀ (ns1 : List String) (n : String) (ns2 : List String) (s0 s1 : UState) (tr1 : List Event),
      runNodes cfg envs ns1 s0 = (some true, s1, tr1) →
      (upgrade_node cfg (envs n) n s1).1 = some false →
      runNodes cfg envs (ns1 ++ n :: ns2) s0 =
        (some false, (upgrade_node cfg (envs n) n s1).2.1,
         tr1 ++ (upgrade_node cfg (envs n) n s1).2.2) := by
  intro ns1
  induction ns1 with
  | nil =>
    intro n ns2 s0 s1 tr1 h1 h2
    simp only [runNodes, Prod.mk.injEq] at h1
    obtain ⟨-, hs, htr⟩ := h1
    subst hs; subst htr
    simp only [List.nil_append]
    rw [runNodes_cons, if_neg (by rw [h2]; simp)]
    rw [← h2]
  | cons a rest ih =>
    intro n ns2 s0 s1 tr1 h1 h2
    rw [runNodes_cons] at h1
    by_cases hp : (upgrade_node cfg (envs a) a s0).1 = some true
    · rw [if_pos hp] at h1
      simp only [Prod.mk.injEq] at h1
      obtain ⟨hr2, hsb, htr⟩ := h1
      subst htr
      have hpre : runNodes cfg envs rest (upgrade_node cfg (envs a) a s0).2.1 =
          (some true, s1,
           (runNodes cfg envs rest (upgrade_node cfg (envs a) a s0).2.1).2.2) := by
        rw [← hr2, ← hsb]
      rw [List.cons_append, runNodes_cons, if_pos hp, ih n ns2 _ s1 _ hpre h2]
      simp [List.append_assoc]
    · rw [if_neg hp] at h1
      exact absurd (by rw [h1] : (upgrade_node cfg (envs a) a s0).1 = some true) hp

theorem afterOsPhase_version (cfg : Config) (env : NodeEnv) (node : String) (s : UState) :
    ((afterOsPhase cfg env node s).2.1).version = s.version := by
  unfold afterOsPhase rebootNode
  by_cases h1 : (cfg.forceReboot || (cfg.reboot && (s.couchUpgradesAvailable || s.osUpgradesAvailable))) = true
  · simp [h1]
  · by_cases h2 : env.startExit = 0 <;> simp [h1, h2]

theorem osPhase_version (cfg : Config) (env : NodeEnv) (node : String) (s : UState) :
    ((osPhase cfg env node s).2.1).version = s.version := by
  unfold osPhase upgrade_system
  by_cases h1 : cfg.upgradeSystem = true
  · by_cases h2 : env.osExit = 0 <;> simp [h1, h2, afterOsPhase_version]
  · simp [h1, afterOsPhase_version]

theorem mainPhase_version (cfg : Config) (env : NodeEnv) (node : String) (s : UState) :
    ((mainPhase cfg env node s).2.1).version = s.version := by
  unfold mainPhase upgrade_couchdb
  by_cases h1 : s.rebooting = true
  · simp [h1]
  · by_cases h2 : env.stopExit = 0
    · by_cases h3 : env.upgradeExit = 0 <;> simp [h1, h2, h3, osPhase_version]
    · simp [h1, h2]

theorem upToDateReboot_version (cfg : Config) (env : NodeEnv) (node : String) (s : UState) :
    ((upToDateReboot cfg env node s).2.1).version = s.version := by
  unfold upToDateReboot rebootNode
  by_cases h1 : (cfg.forceReboot || (cfg.reboot && s.osUpgradesAvailable)) = true <;>
    simp [h1, mainPhase_version]

theorem upToDatePhase_version (cfg : Config) (env : NodeEnv) (node : String) (s : UState) :
    ((upToDatePhase cfg env node s).2.1).version = s.version := by
  unfold upToDatePhase upgrade_system
  by_cases h1 : cfg.upgradeSystem = true
  · by_cases h2 : env.osExit = 0 <;> simp [h1, h2, upToDateReboot_version]
  · simp [h1, upToDateReboot_version]

/-- Method `upgrade_node` never changes `_version`: the target is shared and
never re-resolved per node. -/
theorem upgrade_node_version (cfg : Config) (env : NodeEnv) (node : String) (s : UState) :
    ((upgrade_node cfg env node s).2.1).version = s.version := by
  unfold upgrade_node
  by_cases h1 : s.version = ""
  · simp [h1, mainPhase_version]
  · cases hv : current_version_lower s.version env.versionResp with
    | none => simp [h1, hv]
    | some b =>
      cases b <;> simp [h1, hv, upToDatePhase_version, mainPhase_version]

theorem afterOsPhase_os_const (cfg : Config) (env : NodeEnv) (node : String) (s : UState) :
    ((afterOsPhase cfg env node s).2.1).osUpgradesAvailable = s.osUpgradesAvailable := by
  unfold afterOsPhase rebootNode
  by_cases h1 : (cfg.forceReboot || (cfg.reboot && (s.couchUpgradesAvailable || s.osUpgradesAvailable))) = true
  · simp [h1]
  · by_cases h2 : env.startExit = 0 <;> simp [h1, h2]

theorem osPhase_os_const (cfg : Config) (env : NodeEnv) (node : String) (s : UState)
    (hus : cfg.upgradeSystem = false) :
    ((osPhase cfg env node s).2.1).osUpgradesAvailable = s.osUpgradesAvailable := by
  unfold osPhase
  simp [hus, afterOsPhase_os_const]

theorem mainPhase_os_const (cfg : Config) (env : NodeEnv) (node : String) (s : UState)
    (hus : cfg.upgradeSystem = false) :
    ((mainPhase cfg env node s).2.1).osUpgradesAvailable = s.osUpgradesAvailable := by
  unfold mainPhase upgrade_couchdb
  by_cases h1 : s.rebooting = true
  · simp [h1]
  · by_cases h2 : env.stopExit = 0
    · by_cases h3 : env.upgradeExit = 0 <;> simp [h1, h2, h3, osPhase_os_const cfg env node _ hus]
    · simp [h1, h2]

theorem upToDateReboot_os_const (cfg : Config) (env : NodeEnv) (node : String) (s : UState)
    (hus : cfg.upgradeSystem = false) :
    ((upToDateReboot cfg env node s).2.1).osUpgradesAvailable = s.osUpgradesAvailable := by
  unfold upToDateReboot rebootNode
  by_cases h1 : (cfg.forceReboot || (cfg.reboot && s.osUpgradesAvailable)) = true <;>
    simp [h1, mainPhase_os_const cfg env node _ hus]

/-- With `--upgrade-system` off, no step of `upgrade_node` ever writes
`_os_upgrades_available`. -/
theorem upgrade_node_os_const (cfg : Config) (env : NodeEnv) (node : String) (s : UState)
    (hus : cfg.upgradeSystem = false) :
    ((upgrade_node cfg env node s).2.1).osUpgradesAvailable = s.osUpgradesAvailable := by
  unfold upgrade_node upToDatePhase
  by_cases h1 : s.version = ""
  · simp [h1, mainPhase_os_const cfg env node _ hus]
  · cases hv : current_version_lower s.version env.versionResp with
    | none => simp [h1, hv]
    | some b =>
      cases b <;>
        simp [h1, hv, hus, upToDateReboot_os_const cfg env node _ hus,
          mainPhase_os_const cfg env node _ hus]

theorem afterOsPhase_startTime (cfg : Config) (env : NodeEnv) (node : String) (s : UState)
    (h : Event.sshStart node ∈ (afterOsPhase cfg env node s).2.2) :
    ((afterOsPhase cfg env node s).2.1).serviceStartTime = some env.startTime := by
  unfold afterOsPhase rebootNode at h ⊢
  by_cases h1 : (cfg.forceReboot || (cfg.reboot && (s.couchUpgradesAvailable || s.osUpgradesAvailable))) = true
  · simp [h1] at h
  · by_cases h2 : env.startExit = 0 <;> simp [h1, h2]

theorem osPhase_startTime (cfg : Config) (env : NodeEnv) (node : String) (s : UState)
    (h : Event.sshStart node ∈ (osPhase cfg env node s).2.2) :
    ((osPhase cfg env node s).2.1).serviceStartTime = some env.startTime := by
  unfold osPhase upgrade_system at h ⊢
  by_cases h1 : cfg.upgradeSystem = true
  · by_cases h2 : env.osExit = 0
    · simp only [h1, h2, if_true, if_pos] at h ⊢
      simp at h
      exact afterOsPhase_startTime cfg env node _ (by simpa using h)
    · simp [h1, h2] at h
  · simp only [h1] at h ⊢
    simp at h ⊢
    exact afterOsPhase_startTime cfg env node _ h

theorem mainPhase_startTime (cfg : Config) (env : NodeEnv) (node : String) (s : UState)
    (h : Event.sshStart node ∈ (mainPhase cfg env node s).2.2) :
    ((mainPhase cfg env node s).2.1).serviceStartTime = some env.startTime := by
  unfold mainPhase upgrade_couchdb at h ⊢
  by_cases h1 : s.rebooting = true
  · simp [h1] at h
  · by_cases h2 : env.stopExit = 0
    · by_cases h3 : env.upgradeExit = 0
      · simp only [h1, h2, h3] at h ⊢
        simp at h ⊢
        exact osPhase_startTime cfg env node _ (by simpa using h)
      · simp [h1, h2, h3] at h
    · simp [h1, h2] at h

theorem upToDateReboot_startTime (cfg : Config) (env : NodeEnv) (node : String) (s : UState)
    (h : Event.sshStart node ∈ (upToDateReboot cfg env node s).2.2) :
    ((upToDateReboot cfg env node s).2.1).serviceStartTime = some env.startTime := by
  unfold upToDateReboot rebootNode at h
  by_cases h1 : (cfg.forceReboot || (cfg.reboot && s.osUpgradesAvailable)) = true
  · simp [h1, mainPhase] at h
  · simp [h1] at h

theorem upToDatePhase_startTime (cfg : Config) (env : NodeEnv) (node : String) (s : UState)
    (h : Event.sshStart node ∈ (upToDatePhase cfg env node s).2.2) :
    ((upToDatePhase cfg env node s).2.1).serviceStartTime = some env.startTime := by
  unfold upToDatePhase upgrade_system at h
  by_cases h1 : cfg.upgradeSystem = true
  · by_cases h2 : env.osExit = 0
    · simp [h1, h2, upToDateReboot, rebootNode, mainPhase] at h
      split at h <;> simp at h
    · simp [h1, h2] at h
  · simp [h1, upToDateReboot, rebootNode, mainPhase] at h
    split at h <;> simp at h

/-- Whenever `upgrade_node` issues the start-service command, the final
`_service_start_time` is the clock reading taken inside `start_service`
just before that command ran. -/
theorem upgrade_node_startTime (cfg : Config) (env : NodeEnv) (node : String) (s : UState)
    (h : Event.sshStart node ∈ (upgrade_node cfg env node s).2.2) :
    ((upgrade_node cfg env node s).2.1).serviceStartTime = some env.startTime := by
  unfold upgrade_node at h ⊢
  by_cases h1 : s.version = ""
  · simp only [h1] at h ⊢
    simp at h ⊢
    exact mainPhase_startTime cfg env node _ h
  · cases hv : current_version_lower s.version env.versionResp with
    | none => simp [h1, hv] at h
    | some b =>
      cases b with
      | false =>
        simp only [h1, hv] at h ⊢
        simp at h ⊢
        exact upToDatePhase_startTime cfg env node _ (by simpa using h)
      | true =>
        simp only [h1, hv] at h ⊢
        simp at h ⊢
        exact mainPhase_startTime cfg env node _ (by simpa using h)

/-! ## Closed-form result/trace of `upgrade_node`

`upgrade_node`'s Python return value and issued commands, expressed as a
pure function of the configuration, the node's environment, the incoming
`_version` and the incoming `_os_upgrades_available` flag — the proofs
below show these are the only pieces of incoming mutable state the
control flow can observe. -/

def afterOsRT (cfg : Config) (env : NodeEnv) (node : String) (couch os : Bool) :
    Option Bool × List Event :=
  if cfg.forceReboot || (cfg.reboot && (couch || os)) then
    (some true, [Event.sshReboot node, Event.joinWait node, Event.stableWait node])
  else if env.startExit ≠ 0 then
    (some false, [Event.sshStart node])
  else
    (some true, [Event.sshStart node, Event.joinWait node, Event.stableWait node])

def osRT (cfg : Config) (env : NodeEnv) (node : String) (couch os : Bool) :
    Option Bool × List Event :=
  if cfg.upgradeSystem then
    if env.osExit = 0 then
      let p := afterOsRT cfg env node couch (!(containsSub "No packages marked for update" env.osStdout))
      (p.1, Event.sshUpgradeOs node :: p.2)
    else
      (some false, [Event.sshUpgradeOs node])
  else
    afterOsRT cfg env node couch os

def mainRT (cfg : Config) (env : NodeEnv) (node : String) (rebooting os : Bool) :
    Option Bool × List Event :=
  if rebooting then
    (some true, [Event.joinWait node, Event.stableWait node])
  else if env.stopExit ≠ 0 then
    (some false, [Event.sshStop node])
  else if env.upgradeExit ≠ 0 then
    (some false, [Event.sshStop node, Event.sshUpgrade node])
  else
    let p := osRT cfg env node (!(containsSub "Nothing to do" env.upgradeStdout)) os
    (p.1, Event.sshStop node :: Event.sshUpgrade node :: p.2)

def upToDateRT (cfg : Config) (env : NodeEnv) (node : String) (os : Bool) :
    Option Bool × List Event :=
  if cfg.upgradeSystem then
    if env.osExit = 0 then
      if cfg.forceReboot || (cfg.reboot && !(containsSub "No packages marked for update" env.osStdout)) then
        (some true, [Event.sshUpgradeOs node, Event.sshReboot node,
                     Event.joinWait node, Event.stableWait node])
      else
        (some true, [Event.sshUpgradeOs node])
    else
      (some false, [Event.sshUpgradeOs node])
  else
    if cfg.forceReboot || (cfg.reboot && os) then
      (some true, [Event.sshReboot node, Event.joinWait node, Event.stableWait node])
    else
      (some true, [])

def upgradeNodeRT (cfg : Config) (env : NodeEnv) (node : String) (v : String) (os : Bool) :
    Option Bool × List Event :=
  if v = "" then
    mainRT cfg env node false os
  else
    match current_version_lower v env.versionResp with
    | none => (none, [Event.versionQuery node])
    | some false =>
      let p := upToDateRT cfg env node os
      (p.1, Event.versionQuery node :: p.2)
    | some true =>
      let p := mainRT cfg env node false os
      (p.1, Event.versionQuery node :: p.2)

theorem afterOsPhase_rt1 (cfg : Config) (env : NodeEnv) (node : String) (s : UState) :
    (afterOsPhase cfg env node s).1 =
      (afterOsRT cfg env node s.couchUpgradesAvailable s.osUpgradesAvailable).1 := by
  unfold afterOsPhase afterOsRT rebootNode
  by_cases h1 : (cfg.forceReboot || (cfg.reboot && (s.couchUpgradesAvailable || s.osUpgradesAvailable))) = true
  · simp [h1]
  · by_cases h2 : env.startExit = 0 <;> simp [h1, h2]

theorem afterOsPhase_rt2 (cfg : Config) (env : NodeEnv) (node : String) (s : UState) :
    (afterOsPhase cfg env node s).2.2 =
      (afterOsRT cfg env node s.couchUpgradesAvailable s.osUpgradesAvailable).2 := by
  unfold afterOsPhase afterOsRT rebootNode
  by_cases h1 : (cfg.forceReboot || (cfg.reboot && (s.couchUpgradesAvailable || s.osUpgradesAvailable))) = true
  · simp [h1]
  · by_cases h2 : env.startExit = 0 <;> simp [h1, h2]

theorem osPhase_rt1 (cfg : Config) (env : NodeEnv) (node : String) (s : UState) :
    (osPhase cfg env node s).1 =
      (osRT cfg env node s.couchUpgradesAvailable s.osUpgradesAvailable).1 := by
  unfold osPhase osRT upgrade_system
  by_cases h1 : cfg.upgradeSystem = true
  · by_cases h2 : env.osExit = 0 <;> simp [h1, h2, afterOsPhase_rt1]
  · simp [h1, afterOsPhase_rt1]

theorem osPhase_rt2 (cfg : Config) (env : NodeEnv) (node : String) (s : UState) :
    (osPhase cfg env node s).2.2 =
      (osRT cfg env node s.couchUpgradesAvailable s.osUpgradesAvailable).2 := by
  unfold osPhase osRT upgrade_system
  by_cases h1 : cfg.upgradeSystem = true
  · by_cases h2 : env.osExit = 0 <;> simp [h1, h2, afterOsPhase_rt2]
  · simp [h1, afterOsPhase_rt2]

theorem mainPhase_rt1 (cfg : Config) (env : NodeEnv) (node : String) (s : UState) :
    (mainPhase cfg env node s).1 =
      (mainRT cfg env node s.rebooting s.osUpgradesAvailable).1 := by
  unfold mainPhase mainRT upgrade_couchdb
  by_cases h1 : s.rebooting = true
  · simp [h1]
  · by_cases h2 : env.stopExit = 0
    · by_cases h3 : env.upgradeExit = 0 <;> simp [h1, h2, h3, osPhase_rt1]
    · simp [h1, h2]

theorem mainPhase_rt2 (cfg : Config) (env : NodeEnv) (node : String) (s : UState) :
    (mainPhase cfg env node s).2.2 =
      (mainRT cfg env node s.rebooting s.osUpgradesAvailable).2 := by
  unfold mainPhase mainRT upgrade_couchdb
  by_cases h1 : s.rebooting = true
  · simp [h1]
  · by_cases h2 : env.stopExit = 0
    · by_cases h3 : env.upgradeExit = 0 <;> simp [h1, h2, h3, osPhase_rt2]
    · simp [h1, h2]

theorem upToDatePhase_rt1 (cfg : Config) (env : NodeEnv) (node : String) (s : UState) :
    (upToDatePhase cfg env node s).1 = (upToDateRT cfg env node s.osUpgradesAvailable).1 := by
  unfold upToDatePhase upToDateRT upToDateReboot upgrade_system rebootNode mainPhase
  by_cases h1 : cfg.upgradeSystem = true
  · by_cases h2 : env.osExit = 0
    · by_cases h3 : (cfg.forceReboot ||
          (cfg.reboot && !(containsSub "No packages marked for update" env.osStdout))) = true <;>
        simp [h1, h2, h3]
    · simp [h1, h2]
  · by_cases h3 : (cfg.forceReboot || (cfg.reboot && s.osUpgradesAvailable)) = true <;>
      simp [h1, h3]

theorem upToDatePhase_rt2 (cfg : Config) (env : NodeEnv) (node : String) (s : UState) :
    (upToDatePhase cfg env node s).2.2 = (upToDateRT cfg env node s.osUpgradesAvailable).2 := by
  unfold upToDatePhase upToDateRT upToDateReboot upgrade_system rebootNode mainPhase
  by_cases h1 : cfg.upgradeSystem = true
  · by_cases h2 : env.osExit = 0
    · by_cases h3 : (cfg.forceReboot ||
          (cfg.reboot && !(containsSub "No packages marked for update" env.osStdout))) = true <;>
        simp [h1, h2, h3]
    · simp [h1, h2]
  · by_cases h3 : (cfg.forceReboot || (cfg.reboot && s.osUpgradesAvailable)) = true <;>
      simp [h1, h3]

/-- The Python return value of `upgrade_node` is a pure function of the
configuration, the node's environment, and the incoming `_version` and
`_os_upgrades_available` values. -/
theorem upgrade_node_rt1 (cfg : Config) (env : NodeEnv) (node : String) (s : UState) :
    (upgrade_node cfg env node s).1 =
      (upgradeNodeRT cfg env node s.version s.osUpgradesAvailable).1 := by
  unfold upgrade_node upgradeNodeRT
  by_cases h1 : s.version = ""
  · simp [h1, mainPhase_rt1]
  · cases hv : current_version_lower s.version env.versionResp with
    | none => simp [h1, hv]
    | some b =>
      cases b <;> simp [h1, hv, upToDatePhase_rt1, mainPhase_rt1]

/-- The trace of `upgrade_node` is a pure function of the configuration,
the node's environment, and the incoming `_version` and
`_os_upgrades_available` values. -/
theorem upgrade_node_rt2 (cfg : Config) (env : NodeEnv) (node : String) (s : UState) :
    (upgrade_node cfg env node s).2.2 =
      (upgradeNodeRT cfg env node s.version s.osUpgradesAvailable).2 := by
  unfold upgrade_node upgradeNodeRT
  by_cases h1 : s.version = ""
  · simp [h1, mainPhase_rt2]
  · cases hv : current_version_lower s.version env.versionResp with
    | none => simp [h1, hv]
    | some b =>
      cases b <;> simp [h1, hv, upToDatePhase_rt2, mainPhase_rt2]

/-- With `--upgrade-system` on, every path to a read of
`_os_upgrades_available` first rewrites it, so the incoming flag value is
unobservable. -/
theorem upgradeNodeRT_os_irrel (cfg : Config) (env : NodeEnv) (node : String) (v : String)
    (os1 os2 : Bool) (hus : cfg.upgradeSystem = true) :
    upgradeNodeRT cfg env node v os1 = upgradeNodeRT cfg env node v os2 := by
  unfold upgradeNodeRT
  by_cases h1 : v = ""
  · simp [h1, mainRT, osRT, hus]
  · cases hv : current_version_lower v env.versionResp with
    | none => simp [h1, hv]
    | some b =>
      cases b <;> simp [h1, hv, mainRT, osRT, upToDateRT, hus]

/-- No per-node processing ever executes the latest-version probe. -/
theorem runNodes_no_probe (cfg : Config) (envs : String → NodeEnv) :
    ∀ (ns : List String) (s : UState),
      ((runNodes cfg envs ns s).2.2).all (fun e => !(e.isProbe)) = true := by
  intro ns
  induction ns with
  | nil => intro s; simp [runNodes]
  | cons n rest ih =>
    intro s
    have hall := upgrade_node_nodeCmd cfg (envs n) n s
    rw [List.all_eq_true] at hall
    rw [runNodes_cons]
    by_cases hp : (upgrade_node cfg (envs n) n s).1 = some true
    · rw [if_pos hp]
      rw [List.all_eq_true]
      intro e he
      rcases List.mem_append.mp (by simpa using he) with hl | hr
      · have := hall e hl
        simp only [nodeCmd, Bool.and_eq_true, Bool.not_eq_true'] at this
        simp [this.1.2]
      · have := ih (upgrade_node cfg (envs n) n s).2.1
        rw [List.all_eq_true] at this
        exact this e hr
    · rw [if_neg hp, List.all_eq_true]
      intro e he
      have := hall e he
      simp only [nodeCmd, Bool.and_eq_true, Bool.not_eq_true'] at this
      simp [this.1.2]

/-! ## Claims -/

/-- C4: The two polling loops handle a connection error
asymmetrically: the membership-join loop treats a connection failure as
"not yet joined" and keeps polling (and never returns failure at all),
whereas the stability loop returns success immediately on a connection
error. -/
theorem C4_connection_error_asymmetry :
    (∀ (node : String) (rs : List JoinResp),
       wait_until_joined node (JoinResp.connError :: rs) = wait_until_joined node rs) ∧
    (∀ (node : String) (rs : List JoinResp),
       wait_until_joined node rs ≠ LoopRes.returned false) ∧
    (∀ (rs : List UpResp),
       wait_until_status_stable (UpResp.connError :: rs) = LoopRes.returned true) := by
  refine ⟨?_, ?_, ?_⟩
  · intro node rs
    simp [wait_until_joined, joinStep]
  · intro node rs
    induction rs with
    | nil => simp [wait_until_joined]
    | cons r rs ih =>
      unfold wait_until_joined
      by_cases h : joinStep node r = true <;> simp [h, ih]
  · intro rs
    simp [wait_until_status_stable, stableStep]

/-- C10: With the configured version `"latest"` and an empty node
list, `upgrade` hits `self._nodes[0]` and raises `IndexError` (`none`),
rather than returning an orderly rollout failure. -/
theorem C10_empty_nodes_crash (cfg : Config) (denv : DriverEnv)
    (hv : cfg.version = "latest") :
    upgrade cfg denv [] = (none, []) := by
  unfold upgrade
  simp [hv]

def c10cfg : Config := ⟨"latest", false, false, false, ""⟩

def c10env : NodeEnv :=
  ⟨VersionResp.ok (some "1.0.0"), 1, 2, 0, 0, "", 0, "", 0, 0⟩

def c10denv : DriverEnv := ⟨0, "2.0.0", fun _ => c10env⟩

theorem C10_witness :
    c10cfg.version = "latest" ∧ upgrade c10cfg c10denv [] = (none, []) :=
  ⟨rfl, C10_empty_nodes_crash c10cfg c10denv rfl⟩

def c9cfg : Config := ⟨"2.0.0", false, true, false, ""⟩

def c9env : NodeEnv :=
  ⟨VersionResp.ok (some "1.0.0"), 1, 2, 0, 0, "Nothing to do", 0, "", 0, 0⟩

/-- C9 counterexample: The claimed write-before-read discipline
fails: with `--upgrade-system` off and `--reboot` on, the reboot
decision of a below-target node reads `_os_upgrades_available` without
this node having written it, so two runs differing only in that incoming
flag produce different behaviour (reboot versus explicit restart). -/
theorem C9_counterexample :
    (upgrade_node c9cfg c9env "n1" ⟨"2.0.0", none, false, false, true⟩).2.2 ≠
      (upgrade_node c9cfg c9env "n1" ⟨"2.0.0", none, false, false, false⟩).2.2 := by
  decide

/-- C9 amended: The rebooting flag and the start timestamp are
reset at node entry, and the CouchDB-availability flag is written before
any read; the OS-availability flag is written before read whenever the
OS-upgrade policy is on, and with the policy off it is never written by
any node, so it stays at its initial `False`.  Hence, for any two
incoming states with the same resolved target that satisfy this rollout
invariant, a node's result and issued commands are identical, and the
invariant is preserved — no node's step-skipping or reboot decision
depends on state left over from a previous node. -/
theorem C9_state_independence (cfg : Config) (env : NodeEnv) (node : String)
    (s1 s2 : UState)
    (hv : s1.version = s2.version)
    (h1 : cfg.upgradeSystem = false → s1.osUpgradesAvailable = false)
    (h2 : cfg.upgradeSystem = false → s2.osUpgradesAvailable = false) :
    ((upgrade_node cfg env node s1).1 = (upgrade_node cfg env node s2).1 ∧
     (upgrade_node cfg env node s1).2.2 = (upgrade_node cfg env node s2).2.2) ∧
    (cfg.upgradeSystem = false →
      ((upgrade_node cfg env node s1).2.1).osUpgradesAvailable = s1.osUpgradesAvailable) := by
  constructor
  · have key : upgradeNodeRT cfg env node s1.version s1.osUpgradesAvailable =
        upgradeNodeRT cfg env node s2.version s2.osUpgradesAvailable := by
      rw [hv]
      by_cases hus : cfg.upgradeSystem = true
      · exact upgradeNodeRT_os_irrel cfg env node s2.version _ _ hus
      · rw [h1 (by simpa using hus), h2 (by simpa using hus)]
    exact ⟨by rw [upgrade_node_rt1, upgrade_node_rt1, key],
           by rw [upgrade_node_rt2, upgrade_node_rt2, key]⟩
  · intro hus
    exact upgrade_node_os_const cfg env node s1 hus

theorem C9_witness :
    ((upgrade_node c9cfg c9env "n1" ⟨"2.0.0", some 7, true, true, false⟩).2.2 =
      (upgrade_node c9cfg c9env "n1" ⟨"2.0.0", none, false, false, false⟩).2.2) ∧
    ((upgrade_node c9cfg c9env "n1" ⟨"2.0.0", some 7, true, true, false⟩).2.1).osUpgradesAvailable = false := by
  have h := C9_state_independence c9cfg c9env "n1"
    ⟨"2.0.0", some 7, true, true, false⟩ ⟨"2.0.0", none, false, false, false⟩
    rfl (fun _ => rfl) (fun _ => rfl)
  exact ⟨h.1.2, h.2 rfl⟩

def c5cfg : Config :=
  ⟨"2.0.0", false, false, false,
   "stable=$(grep ...); if [ ... -ge \x7bservice_start_time\x7d ]; then echo yes; fi"⟩

def c5env : NodeEnv :=
  ⟨VersionResp.ok (some "1.0.0"), 1, 2, 0, 0, "upgraded couchdb", 0, "", 0, 0⟩

/-- C5 counterexample: A full successful upgrade of a
below-target node: the service is started and the stability wait runs,
yet no stability-check remote command is ever executed — the configured
`check_stable_command` and the recorded `_service_start_time` are never
consumed, so no timestamp is ever "passed to the stability-check remote
command". -/
theorem C5_counterexample :
    (upgrade_node c5cfg c5env "n1" (initState c5cfg)).1 = some true ∧
    Event.sshStart "n1" ∈ (upgrade_node c5cfg c5env "n1" (initState c5cfg)).2.2 ∧
    Event.stableWait "n1" ∈ (upgrade_node c5cfg c5env "n1" (initState c5cfg)).2.2 ∧
    (upgrade_node c5cfg c5env "n1" (initState c5cfg)).2.2.all
      (fun e => !(e.isCheckStable)) = true := by
  decide

/-- C5 amended: start_service records `_service_start_time` at
the moment it issues the start-service command (so whenever that command
is issued the final recorded timestamp is the clock reading taken just
before it ran), but the stability wait polls the HTTP `/_up` endpoint:
no stability-check remote command is ever executed and the timestamp is
never passed to any remote command. -/
theorem C5_stability_timestamp (cfg : Config) (env : NodeEnv) (node : String) (s : UState) :
    ((upgrade_node cfg env node s).2.2.all (fun e => !(e.isCheckStable)) = true) ∧
    (Event.sshStart node ∈ (upgrade_node cfg env node s).2.2 →
      ((upgrade_node cfg env node s).2.1).serviceStartTime = some env.startTime) := by
  constructor
  · have hall := upgrade_node_nodeCmd cfg env node s
    rw [List.all_eq_true] at hall ⊢
    intro e he
    have h := hall e he
    simp only [nodeCmd, Bool.and_eq_true, Bool.not_eq_true'] at h
    simp [h.2]
  · exact upgrade_node_startTime cfg env node s

theorem C5_witness :
    ((upgrade_node c5cfg c5env "n1" (initState c5cfg)).2.2.all
       (fun e => !(e.isCheckStable)) = true) ∧
    ((upgrade_node c5cfg c5env "n1" (initState c5cfg)).2.1).serviceStartTime = some 2 := by
  refine ⟨(C5_stability_timestamp c5cfg c5env "n1" (initState c5cfg)).1, ?_⟩
  exact (C5_stability_timestamp c5cfg c5env "n1" (initState c5cfg)).2 (by decide)

/-- C2: If every node of a prefix succeeds and the next node's state
machine reports failure, the rollout loop returns failure right there:
the trace is exactly the prefix trace plus the failing node's trace, and
no remote call or HTTP request is ever issued to any node that comes
after the failing one. -/
theorem C2_abort_on_failure (cfg : Config) (envs : String → NodeEnv)
    (ns1 : List String) (n : String) (ns2 : List String) (s1 : UState) (tr1 : List Event)
    (h1 : runNodes cfg envs ns1 (initState cfg) = (some true, s1, tr1))
    (h2 : (upgrade_node cfg (envs n) n s1).1 = some false) :
    (runNodes cfg envs (ns1 ++ n :: ns2) (initState cfg)).1 = some false ∧
    (runNodes cfg envs (ns1 ++ n :: ns2) (initState cfg)).2.2 =
      tr1 ++ (upgrade_node cfg (envs n) n s1).2.2 ∧
    (∀ m ∈ ns2, m ∉ ns1 → m ≠ n →
      ∀ e ∈ (runNodes cfg envs (ns1 ++ n :: ns2) (initState cfg)).2.2, e.node ≠ m) := by
  have hrun := runNodes_prefix_fail cfg envs ns1 n ns2 (initState cfg) s1 tr1 h1 h2
  refine ⟨by rw [hrun], by rw [hrun], ?_⟩
  intro m _ hnot1 hnotn e he hEq
  rw [hrun] at he
  rcases List.mem_append.mp (by simpa using he) with h | h
  · have hm : e.node ∈ ns1 := by
      apply runNodes_node_mem cfg envs ns1 (initState cfg) e
      rw [h1]
      exact h
    exact hnot1 (hEq ▸ hm)
  · have hall := upgrade_node_nodeCmd cfg (envs n) n s1
    rw [List.all_eq_true] at hall
    have hn : e.node = n := nodeCmd_node (hall e h)
    exact hnotn (hEq ▸ hn)

def c2cfg : Config := ⟨"2.0.0", false, false, false, ""⟩

def c2envOk : NodeEnv :=
  ⟨VersionResp.ok (some "1.0.0"), 1, 2, 0, 0, "updated packages", 0, "", 0, 0⟩

def c2envBad : NodeEnv :=
  ⟨VersionResp.ok (some "1.0.0"), 1, 2, 1, 0, "", 0, "", 0, 0⟩

def c2envs : String → NodeEnv := fun m => if m = "B" then c2envBad else c2envOk

def c2s1 : UState := ⟨"2.0.0", some 2, false, true, false⟩

def c2tr1 : List Event :=
  [Event.versionQuery "A", Event.sshStop "A", Event.sshUpgrade "A",
   Event.sshStart "A", Event.joinWait "A", Event.stableWait "A"]

theorem C2_witness :
    runNodes c2cfg c2envs ["A"] (initState c2cfg) = (some true, c2s1, c2tr1) ∧
    (upgrade_node c2cfg (c2envs "B") "B" c2s1).1 = some false ∧
    (runNodes c2cfg c2envs (["A"] ++ "B" :: ["C"]) (initState c2cfg)).1 = some false ∧
    (∀ e ∈ (runNodes c2cfg c2envs (["A"] ++ "B" :: ["C"]) (initState c2cfg)).2.2,
       e.node ≠ "C") := by
  have h1 : runNodes c2cfg c2envs ["A"] (initState c2cfg) = (some true, c2s1, c2tr1) := by
    decide
  have h2 : (upgrade_node c2cfg (c2envs "B") "B" c2s1).1 = some false := by decide
  have hc := C2_abort_on_failure c2cfg c2envs ["A"] "B" ["C"] c2s1 c2tr1 h1 h2
  exact ⟨h1, h2, hc.1,
    fun e he => hc.2.2 "C" (by decide) (by decide) (by decide) e he⟩

def c1cfg : Config := ⟨"2.0.0", false, false, true, ""⟩

def c1env : NodeEnv :=
  ⟨VersionResp.ok (some "2.0.0"), 1, 2, 0, 0, "", 0, "", 0, 0⟩

/-- C1 counterexample: With `--force-reboot` set, a node whose
running version equals the target and for which no OS upgrade is
requested is *not* given success immediately: the node is rebooted and
the join/stability waits still run, so the claim's "returns success for
that node immediately, without the join wait or the stability wait"
fails. -/
theorem C1_counterexample :
    c1cfg.upgradeSystem = false ∧
    current_version_lower c1cfg.version c1env.versionResp = some false ∧
    Event.joinWait "n1" ∈ (upgrade_node c1cfg c1env "n1" (initState c1cfg)).2.2 := by
  decide

/-- C1 amended: A node reporting a version equal to or greater
than the target is never sent a stop-service, upgrade, or start-service
command; and when no OS upgrade is requested *and force-reboot is not
set* (the OS-availability flag being `false`, as it is in every rollout
state when no OS upgrade is requested), processing returns success
immediately, with the version query as the only interaction — no join
wait and no stability wait. -/
theorem C1_up_to_date_skip (cfg : Config) (env : NodeEnv) (node : String) (s : UState)
    (hne : s.version ≠ "")
    (hv : current_version_lower s.version env.versionResp = some false) :
    ((upgrade_node cfg env node s).2.2.all (fun e => !(e.isStopUpgStart)) = true) ∧
    (cfg.upgradeSystem = false → cfg.forceReboot = false → s.osUpgradesAvailable = false →
      upgrade_node cfg env node s =
        (some true, { s with serviceStartTime := some env.entryTime, rebooting := false },
         [Event.versionQuery node])) := by
  constructor
  · rw [upgrade_node_rt2]
    unfold upgradeNodeRT upToDateRT
    simp only [hne, if_neg, hv]
    by_cases h1 : cfg.upgradeSystem = true
    · by_cases h2 : env.osExit = 0
      · by_cases h3 : (cfg.forceReboot ||
            (cfg.reboot && !(containsSub "No packages marked for update" env.osStdout))) = true <;>
          simp [h1, h2, h3, Event.isStopUpgStart]
      · simp [h1, h2, Event.isStopUpgStart]
    · by_cases h3 : (cfg.forceReboot || (cfg.reboot && s.osUpgradesAvailable)) = true <;>
        simp [h1, h3, Event.isStopUpgStart]
  · intro hus hfr hos
    unfold upgrade_node upToDatePhase upToDateReboot
    simp [hne, hv, hus, hfr, hos]

def c1wcfg : Config := ⟨"2.0.0", false, false, false, ""⟩

theorem C1_witness :
    ("2.0.0" : String) ≠ "" ∧
    current_version_lower "2.0.0" (VersionResp.ok (some "2.0.0")) = some false ∧
    ((upgrade_node c1wcfg c1env "n1" (initState c1wcfg)).2.2.all
       (fun e => !(e.isStopUpgStart)) = true) ∧
    upgrade_node c1wcfg c1env "n1" (initState c1wcfg) =
      (some true,
       { initState c1wcfg with serviceStartTime := some c1env.entryTime, rebooting := false },
       [Event.versionQuery "n1"]) := by
  have h := C1_up_to_date_skip c1wcfg c1env "n1" (initState c1wcfg) (by decide) (by decide)
  exact ⟨by decide, by decide, h.1, h.2 rfl rfl rfl⟩

/-- Did the CouchDB upgrade command actually change anything (stdout
lacks the `'Nothing to do'` no-op marker)? -/
def couchOcc (env : NodeEnv) : Bool := !(containsSub "Nothing to do" env.upgradeStdout)

/-- Did an OS upgrade actually occur (policy on, and stdout lacks the
`'No packages marked for update'` no-op marker)? -/
def osOcc (cfg : Config) (env : NodeEnv) : Bool :=
  cfg.upgradeSystem && !(containsSub "No packages marked for update" env.osStdout)

/-- C3: Assuming every remote command that runs before the reboot
decision succeeds, a reboot is issued iff force-reboot is set, or
reboot-on-upgrade is set and (the node was below target and its CouchDB
upgrade was not a no-op, or an OS upgrade actually occurred); for an
up-to-date node (`lower = false`) only the OS-upgrade signal counts. -/
theorem C3_reboot_iff (cfg : Config) (env : NodeEnv) (node : String) (s : UState) (lower : Bool)
    (hne : s.version ≠ "")
    (hv : current_version_lower s.version env.versionResp = some lower)
    (hok : lower = true → env.stopExit = 0 ∧ env.upgradeExit = 0)
    (hos : cfg.upgradeSystem = true → env.osExit = 0)
    (hosin : s.osUpgradesAvailable = false) :
    (Event.sshReboot node ∈ (upgrade_node cfg env node s).2.2) ↔
      (cfg.forceReboot || (cfg.reboot && ((lower && couchOcc env) || osOcc cfg env))) = true := by
  rw [upgrade_node_rt2]
  unfold upgradeNodeRT
  simp only [hne, if_neg, hv]
  cases lower with
  | false =>
    unfold upToDateRT
    by_cases h1 : cfg.upgradeSystem = true
    · by_cases h2 : (cfg.forceReboot ||
          (cfg.reboot && !(containsSub "No packages marked for update" env.osStdout))) = true <;>
        simp [h1, hos h1, h2, couchOcc, osOcc]
    · by_cases h2 : cfg.forceReboot = true <;>
        simp [h1, h2, hosin, couchOcc, osOcc]
  | true =>
    obtain ⟨hstop, hupg⟩ := hok rfl
    unfold mainRT osRT afterOsRT
    by_cases h1 : cfg.upgradeSystem = true
    · by_cases h3 : (cfg.forceReboot ||
          (cfg.reboot && (!(containsSub "Nothing to do" env.upgradeStdout) ||
            !(containsSub "No packages marked for update" env.osStdout)))) = true
      · simp [h1, hos h1, hstop, hupg, h3, couchOcc, osOcc]
      · by_cases h4 : env.startExit = 0 <;>
          simp [h1, hos h1, hstop, hupg, h3, h4, couchOcc, osOcc]
    · by_cases h3 : (cfg.forceReboot ||
          (cfg.reboot && !(containsSub "Nothing to do" env.upgradeStdout))) = true
      · simp [h1, hstop, hupg, h3, hosin, couchOcc, osOcc]
      · by_cases h4 : env.startExit = 0 <;>
          simp [h1, hstop, hupg, h3, h4, hosin, couchOcc, osOcc]

def c3cfg : Config := ⟨"2.0.0", false, true, false, ""⟩

def c3env : NodeEnv :=
  ⟨VersionResp.ok (some "1.0.0"), 1, 2, 0, 0, "Nothing to do", 0, "", 0, 0⟩

theorem C3_witness :
    current_version_lower "2.0.0" (VersionResp.ok (some "1.0.0")) = some true ∧
    Event.sshReboot "n1" ∉ (upgrade_node c3cfg c3env "n1" (initState c3cfg)).2.2 := by
  have h := C3_reboot_iff c3cfg c3env "n1" (initState c3cfg) true (by decide) (by decide)
    (by decide) (by decide) rfl
  exact ⟨by decide, fun hmem => absurd (h.mp hmem) (by decide)⟩

/-- C6: A node reporting a version lower than the target whose
commands all succeed and for which the reboot decision is negative
(force-reboot off; if reboot-on-upgrade is on, both the CouchDB and OS
upgrades were no-ops) is processed as: stop-service, then upgrade, then
(optional OS upgrade), then start-service, in exactly that order,
followed by the join wait and then the stability wait — and the node
reports success. -/
theorem C6_stop_upgrade_start_order (cfg : Config) (env : NodeEnv) (node : String) (s : UState)
    (hne : s.version ≠ "")
    (hv : current_version_lower s.version env.versionResp = some true)
    (hstop : env.stopExit = 0)
    (hupg : env.upgradeExit = 0)
    (hos : cfg.upgradeSystem = true → env.osExit = 0)
    (hstart : env.startExit = 0)
    (hfr : cfg.forceReboot = false)
    (hnr : cfg.reboot = true → couchOcc env = false ∧ osOcc cfg env = false)
    (hosin : s.osUpgradesAvailable = false) :
    (upgrade_node cfg env node s).1 = some true ∧
    (upgrade_node cfg env node s).2.2 =
      [Event.versionQuery node, Event.sshStop node, Event.sshUpgrade node] ++
        (if cfg.upgradeSystem then [Event.sshUpgradeOs node] else []) ++
      [Event.sshStart node, Event.joinWait node, Event.stableWait node] := by
  rw [upgrade_node_rt1, upgrade_node_rt2]
  unfold upgradeNodeRT mainRT osRT afterOsRT
  by_cases hrb : cfg.reboot = true
  · obtain ⟨hc, ho⟩ := hnr hrb
    simp only [couchOcc] at hc
    rw [Bool.not_eq_false'] at hc
    by_cases h1 : cfg.upgradeSystem = true
    · have ho2 : containsSub "No packages marked for update" env.osStdout = true := by
        simp only [osOcc, h1, Bool.true_and] at ho
        rw [Bool.not_eq_false'] at ho
        exact ho
      constructor <;> simp [hne, hv, hstop, hupg, hos h1, hstart, h1, hfr, hrb, hc, ho2]
    · constructor <;> simp [hne, hv, hstop, hupg, hstart, h1, hfr, hrb, hc, hosin]
  · by_cases h1 : cfg.upgradeSystem = true
    · constructor <;> simp [hne, hv, hstop, hupg, hos h1, hstart, h1, hfr, hrb, hosin]
    · constructor <;> simp [hne, hv, hstop, hupg, hstart, h1, hfr, hrb, hosin]

def c6cfg : Config := ⟨"2.0.0", true, true, false, ""⟩

def c6env : NodeEnv :=
  ⟨VersionResp.ok (some "1.5.0"), 1, 2, 0, 0, "Nothing to do", 0,
   "No packages marked for update", 0, 0⟩

theorem C6_witness :
    current_version_lower "2.0.0" (VersionResp.ok (some "1.5.0")) = some true ∧
    (upgrade_node c6cfg c6env "n1" (initState c6cfg)).1 = some true ∧
    (upgrade_node c6cfg c6env "n1" (initState c6cfg)).2.2 =
      [Event.versionQuery "n1", Event.sshStop "n1", Event.sshUpgrade "n1",
       Event.sshUpgradeOs "n1", Event.sshStart "n1",
       Event.joinWait "n1", Event.stableWait "n1"] := by
  have h := C6_stop_upgrade_start_order c6cfg c6env "n1" (initState c6cfg) (by decide)
    (by decide) rfl rfl (by decide) rfl rfl (by decide) rfl
  exact ⟨by decide, h.1, by rw [h.2]; decide⟩

/-- C7: With the configured version `"latest"`, the driver probes
the first node once: if the probe command exits non-zero the whole
rollout fails before any node is contacted; if the stripped probe output
is not a `StrictVersion` string the rollout dies on the raised
`ValueError`, again before any node is contacted; if it parses but is
not greater than `0.0.0` the rollout fails likewise; and on success the
stripped output becomes the single shared target for the whole node
loop, which never runs the probe again (`upgrade_node` also never
rewrites `_version`, so the target is never re-resolved per node). -/
theorem C7_latest_resolution (cfg : Config) (denv : DriverEnv) (n0 : String) (rest : List String)
    (hv : cfg.version = "latest") :
    (denv.probeExit ≠ 0 →
       upgrade cfg denv (n0 :: rest) = (some false, [Event.sshLatestVersion n0])) ∧
    (denv.probeExit = 0 → parseStrictVersion (trimChars denv.probeStdout.toList) = none →
       upgrade cfg denv (n0 :: rest) = (none, [Event.sshLatestVersion n0])) ∧
    (∀ v, denv.probeExit = 0 → parseStrictVersion (trimChars denv.probeStdout.toList) = some v →
       SVersion.cmp v ⟨0, 0, 0, none⟩ ≠ Ordering.gt →
       upgrade cfg denv (n0 :: rest) = (some false, [Event.sshLatestVersion n0])) ∧
    (∀ v, denv.probeExit = 0 → parseStrictVersion (trimChars denv.probeStdout.toList) = some v →
       SVersion.cmp v ⟨0, 0, 0, none⟩ = Ordering.gt →
       upgrade cfg denv (n0 :: rest) =
         ((runNodes cfg denv.nodeEnvs (n0 :: rest)
             { initState cfg with version := String.mk (trimChars denv.probeStdout.toList) }).1,
          Event.sshLatestVersion n0 ::
            (runNodes cfg denv.nodeEnvs (n0 :: rest)
               { initState cfg with version := String.mk (trimChars denv.probeStdout.toList) }).2.2) ∧
       ((runNodes cfg denv.nodeEnvs (n0 :: rest)
           { initState cfg with version := String.mk (trimChars denv.probeStdout.toList) }).2.2).all
          (fun e => !(e.isProbe)) = true) ∧
    (∀ (env : NodeEnv) (node : String) (s : UState),
       ((upgrade_node cfg env node s).2.1).version = s.version) := by
  refine ⟨?_, ?_, ?_, ?_, fun env node s => upgrade_node_version cfg env node s⟩
  · intro hp
    unfold upgrade get_latest_version
    simp [hv, hp]
  · intro hp hparse
    simp only [String.toList] at hparse
    unfold upgrade get_latest_version
    simp [hv, hp, hparse]
  · intro v hp hparse hcmp
    simp only [String.toList] at hparse
    unfold upgrade get_latest_version
    simp [hv, hp, hparse, hcmp]
  · intro v hp hparse hcmp
    refine ⟨?_, runNodes_no_probe cfg denv.nodeEnvs _ _⟩
    simp only [String.toList] at hparse
    unfold upgrade get_latest_version
    simp [hv, hp, hparse, hcmp]

def c7cfg : Config := ⟨"latest", false, false, false, ""⟩

def c7env : NodeEnv :=
  ⟨VersionResp.ok (some "1.0.0"), 1, 2, 0, 0, "", 0, "", 0, 0⟩

def c7denv : DriverEnv := ⟨1, "", fun _ => c7env⟩

theorem C7_witness :
    c7cfg.version = "latest" ∧ c7denv.probeExit ≠ 0 ∧
    upgrade c7cfg c7denv ["n1", "n2"] = (some false, [Event.sshLatestVersion "n1"]) := by
  refine ⟨rfl, by decide, ?_⟩
  exact (C7_latest_resolution c7cfg c7denv "n1" ["n2"] rfl).1 (by decide)

def c8cfg : Config := ⟨"2.0.0", false, false, true, ""⟩

def c8env : NodeEnv :=
  ⟨VersionResp.ok (some "2.0.0"), 1, 2, 0, 0, "", 0, "", 0, 1⟩

/-- C8 counterexample: The reboot command's ssh call is the one
remote command whose exit status is discarded: here it exits `1`, the
reboot is issued, and the node still reports success. -/
theorem C8_counterexample :
    c8env.rebootExit = 1 ∧
    Event.sshReboot "n1" ∈ (upgrade_node c8cfg c8env "n1" (initState c8cfg)).2.2 ∧
    (upgrade_node c8cfg c8env "n1" (initState c8cfg)).1 = some true := by
  decide

/-- C8 amended: A non-zero exit status from the stop-service,
upgrade, OS-upgrade, or start-service command makes the node's run
report failure; the reboot command's exit status, however, is discarded
(`reboot`, line 346, never inspects it), so the run's entire behaviour
is independent of it. -/
theorem C8_nonzero_exit_fails (cfg : Config) (env : NodeEnv) (node : String) (s : UState)
    (hne : s.version ≠ "")
    (hosin : s.osUpgradesAvailable = false) :
    (current_version_lower s.version env.versionResp = some true → env.stopExit ≠ 0 →
       (upgrade_node cfg env node s).1 = some false) ∧
    (current_version_lower s.version env.versionResp = some true → env.stopExit = 0 →
       env.upgradeExit ≠ 0 → (upgrade_node cfg env node s).1 = some false) ∧
    (current_version_lower s.version env.versionResp = some true → env.stopExit = 0 →
       env.upgradeExit = 0 → cfg.upgradeSystem = true → env.osExit ≠ 0 →
       (upgrade_node cfg env node s).1 = some false) ∧
    (current_version_lower s.version env.versionResp = some false → cfg.upgradeSystem = true →
       env.osExit ≠ 0 → (upgrade_node cfg env node s).1 = some false) ∧
    (current_version_lower s.version env.versionResp = some true → env.stopExit = 0 →
       env.upgradeExit = 0 → (cfg.upgradeSystem = true → env.osExit = 0) →
       cfg.forceReboot = false →
       (cfg.reboot = true → couchOcc env = false ∧ osOcc cfg env = false) →
       env.startExit ≠ 0 →
       (upgrade_node cfg env node s).1 = some false) ∧
    (∀ x y : Int,
       upgrade_node cfg { env with rebootExit := x } node s =
         upgrade_node cfg { env with rebootExit := y } node s) := by
  refine ⟨?_, ?_, ?_, ?_, ?_, ?_⟩
  · intro hv hstop
    rw [upgrade_node_rt1]
    unfold upgradeNodeRT mainRT
    simp [hne, hv, hstop]
  · intro hv hstop hupg
    rw [upgrade_node_rt1]
    unfold upgradeNodeRT mainRT
    simp [hne, hv, hstop, hupg]
  · intro hv hstop hupg hus hosx
    rw [upgrade_node_rt1]
    unfold upgradeNodeRT mainRT osRT
    simp [hne, hv, hstop, hupg, hus, hosx]
  · intro hv hus hosx
    rw [upgrade_node_rt1]
    unfold upgradeNodeRT upToDateRT
    simp [hne, hv, hus, hosx]
  · intro hv hstop hupg hosok hfr hnr hstart
    rw [upgrade_node_rt1]
    unfold upgradeNodeRT mainRT osRT afterOsRT
    by_cases hrb : cfg.reboot = true
    · obtain ⟨hc, ho⟩ := hnr hrb
      simp only [couchOcc] at hc
      rw [Bool.not_eq_false'] at hc
      by_cases h1 : cfg.upgradeSystem = true
      · have ho2 : containsSub "No packages marked for update" env.osStdout = true := by
          simp only [osOcc, h1, Bool.true_and] at ho
          rw [Bool.not_eq_false'] at ho
          exact ho
        simp [hne, hv, hstop, hupg, hosok h1, hstart, h1, hfr, hrb, hc, ho2]
      · simp [hne, hv, hstop, hupg, hstart, h1, hfr, hrb, hc, hosin]
    · by_cases h1 : cfg.upgradeSystem = true
      · simp [hne, hv, hstop, hupg, hosok h1, hstart, h1, hfr, hrb, hosin]
      · simp [hne, hv, hstop, hupg, hstart, h1, hfr, hrb, hosin]
  · intro x y
    unfold upgrade_node upToDatePhase upToDateReboot mainPhase osPhase afterOsPhase
      upgrade_couchdb upgrade_system rebootNode current_version_lower
    simp

def c8wcfg : Config := ⟨"2.0.0", false, false, false, ""⟩

def c8wenv : NodeEnv :=
  ⟨VersionResp.ok (some "1.0.0"), 1, 2, 1, 0, "", 0, "", 0, 0⟩

theorem C8_witness :
    current_version_lower "2.0.0" (VersionResp.ok (some "1.0.0")) = some true ∧
    c8wenv.stopExit ≠ 0 ∧
    (upgrade_node c8wcfg c8wenv "n1" (initState c8wcfg)).1 = some false := by
  refine ⟨by decide, by decide, ?_⟩
  exact (C8_nonzero_exit_fails c8wcfg c8wenv "n1" (initState c8wcfg) (by decide) rfl).1
    (by decide) (by decide)
